import Mathlib

/-
Verification of the equality-comparison capability in
`cpp/src/arrow/util/compare.h` (namespace `arrow::util`).

The header defines a CRTP helper `EqualityComparable<T>` which, for any
type `T` providing `bool Equals(const T&) const` (possibly with further
overloads taking extra parameters), synthesizes:
  - `operator==(a, b)`  returning `a.Equals(b)`            (line 125)
  - `operator!=(a, b)`  returning `!(a == b)`              (line 126)
  - `Equals(const std::shared_ptr<T>& other, Extra&&...)`  (lines 111-117):
    returns `false` when `other == NULLPTR`, otherwise
    `cast().Equals(*other, extra...)`
  - `struct PtrsEqual` (lines 119-123): a binary predicate on two
    `shared_ptr<T>` that returns `l->Equals(*r)`.

Shallow embedding choices:
  - a `std::shared_ptr<T>` is modelled by `Option T` (`none` = null);
  - the conforming method `T::Equals(const T&) const` is a parameter
    `Equals : T → T → Bool`; an overload taking extra arguments is a
    parameter `Equals : T → T → E → Bool` where `E` packages the extra
    argument list (for an empty list, `E = Unit`);
  - the unchecked dereference `*r` of a possibly-null pointer inside
    `PtrsEqual` (undefined behavior in C++ when null) is modelled by
    returning `Option Bool`: `none` marks the null-dereference branch.
-/

namespace Arrow.Util

/-- Model of `operator==(T const& a, T const& b)` from compare.h line 125:
`return a.Equals(b);`. -/
def opEq {T : Type} (Equals : T → T → Bool) (a b : T) : Bool :=
  Equals a b

/-- Model of `operator!=(T const& a, T const& b)` from compare.h line 126:
`return !(a == b);`. -/
def opNe {T : Type} (Equals : T → T → Bool) (a b : T) : Bool :=
  !(opEq Equals a b)

/-- Model of the member overload
`bool Equals(const std::shared_ptr<T>& other, Extra&&... extra) const`
from compare.h lines 111-117: if `other == NULLPTR` return `false`,
otherwise `cast().Equals(*other, std::forward<Extra>(extra)...)`.
The parameter `Equals` is the concrete overload of `T::Equals` selected
by the extra-argument pack, and `extra : E` is that pack. -/
def equalsShared {T E : Type} (Equals : T → T → E → Bool)
    (self : T) (other : Option T) (extra : E) : Bool :=
  match other with
  | none => false
  | some b => Equals self b extra

/-- Instantiation of `equalsShared` with an empty extra-argument pack,
so that the delegated call is exactly the `T::Equals(const T&) const`
used by `operator==`. -/
def equalsSharedNoExtra {T : Type} (Equals : T → T → Bool)
    (self : T) (other : Option T) : Bool :=
  equalsShared (fun a b (_ : Unit) => Equals a b) self other ()

/-- Model of `struct PtrsEqual`, compare.h lines 119-123:
`bool operator()(const shared_ptr<T>& l, const shared_ptr<T>& r) const
 { return l->Equals(*r); }`.
Both dereferences are unchecked in the source; a null argument is
undefined behavior there, modelled here by the `none` result. -/
def PtrsEqual {T : Type} (Equals : T → T → Bool)
    (l r : Option T) : Option Bool :=
  match l, r with
  | some a, some b => some (Equals a b)
  | _, _ => none

/-- Concrete conforming type used to instantiate witnesses: the `Point`
of the spec's test scenario, with structural equality as its `Equals`. -/
structure Point where
  x : Nat
  y : Nat
deriving DecidableEq

/-- Structural `Equals` for `Point`: equal iff both coordinates agree. -/
def Point.Equals (a b : Point) : Bool :=
  a.x == b.x && a.y == b.y

/-- Variant of `Point.Equals` taking one extra `Nat` tolerance argument,
used to exercise the extra-argument forwarding of `equalsShared`:
coordinates must agree within the tolerance. -/
def Point.EqualsTol (a b : Point) (tol : Nat) : Bool :=
  (max a.x b.x - min a.x b.x ≤ tol) && (max a.y b.y - min a.y b.y ≤ tol)

/-- C1: for every conforming type `T` (any `Equals : T → T → Bool`) and
all values `a`, `b`, the synthesized `operator==` returns exactly
`a.Equals(b)`. -/
theorem opEq_eq_Equals {T : Type} (Equals : T → T → Bool) (a b : T) :
    opEq Equals a b = Equals a b :=
  rfl

/-- C2: comparing any value against an absent (null) shared reference
returns `false` unconditionally, for every conforming type, every value,
every extra-argument pack, and every `Equals` implementation — the
quantification over `Equals` shows `T::Equals` is never invoked, and the
total `Bool` result (not `Option`/`Except`) shows nothing is thrown. -/
theorem equalsShared_absent_false {T E : Type} (Equals : T → T → E → Bool)
    (self : T) (extra : E) :
    equalsShared Equals self none extra = false :=
  rfl

/-- C3: when the shared reference is present, the capability's `Equals`
overload dereferences it and delegates to `T::Equals`, forwarding the
extra arguments unchanged: the result is `Equals self b extra`. -/
theorem equalsShared_present_delegates {T E : Type}
    (Equals : T → T → E → Bool) (self b : T) (extra : E) :
    equalsShared Equals self (some b) extra = Equals self b extra :=
  rfl

/-- C4: on two non-null shared references, `PtrsEqual` returns exactly
`T::Equals` applied to the dereferenced values (never pointer identity:
the result depends only on the pointees `a` and `b`). -/
theorem ptrsEqual_derefs_Equals {T : Type} (Equals : T → T → Bool)
    (a b : T) :
    PtrsEqual Equals (some a) (some b) = some (Equals a b) :=
  rfl

/-- C5: `operator!=` returns the logical negation of `operator==` on all
inputs; it is defined only as that negation, so the two can never
diverge. -/
theorem opNe_negates_opEq {T : Type} (Equals : T → T → Bool) (a b : T) :
    opNe Equals a b = !(opEq Equals a b) :=
  rfl

/-- C7: under the precondition that both references handed to
`PtrsEqual` are non-null, the null-dereference branch (the `none`
result of the model) is unreachable: the predicate produces a defined
`Bool` result. -/
theorem ptrsEqual_no_null_deref {T : Type} (Equals : T → T → Bool)
    (l r : Option T) (hl : l ≠ none) (hr : r ≠ none) :
    PtrsEqual Equals l r ≠ none := by
  cases l with
  | none => exact absurd rfl hl
  | some a =>
    cases r with
    | none => exact absurd rfl hr
    | some b => exact fun h => Option.noConfusion h

/-- Witness for C7: `PtrsEqual` on two concrete non-null references to
points is defined. -/
theorem ptrsEqual_no_null_deref_witness :
    PtrsEqual Point.Equals (some ⟨1, 2⟩) (some ⟨1, 3⟩) ≠ none :=
  ptrsEqual_no_null_deref Point.Equals (some ⟨1, 2⟩) (some ⟨1, 3⟩)
    (by decide) (by decide)

/-- C8: whenever the underlying `Equals` of a conforming type is
symmetric, the synthesized `operator==` is commutative; the capability
itself imposes no constraint forcing the hypothesis. -/
theorem opEq_comm_of_symm {T : Type} (Equals : T → T → Bool)
    (hsym : ∀ a b : T, Equals a b = Equals b a) (a b : T) :
    opEq Equals a b = opEq Equals b a :=
  hsym a b

/-- Symmetry of boolean equality on naturals, used to discharge the
symmetry hypothesis at the C8 witness. -/
theorem beq_nat_symm (m n : Nat) : (m == n) = (n == m) := by
  by_cases h : m = n
  · subst h; rfl
  · rw [beq_eq_false_iff_ne.mpr h, beq_eq_false_iff_ne.mpr (Ne.symm h)]

/-- Symmetry of the concrete `Point.Equals`, discharging the hypothesis
of the commutativity theorem at the witness. -/
theorem Point.Equals_symm (a b : Point) :
    Point.Equals a b = Point.Equals b a := by
  unfold Point.Equals
  rw [beq_nat_symm a.x b.x, beq_nat_symm a.y b.y]

/-- Witness for C8: `Point.Equals` is symmetric, and `opEq` commutes on
the scenario points. -/
theorem opEq_comm_of_symm_witness :
    opEq Point.Equals ⟨1, 2⟩ ⟨1, 3⟩ = opEq Point.Equals ⟨1, 3⟩ ⟨1, 2⟩ :=
  opEq_comm_of_symm Point.Equals Point.Equals_symm ⟨1, 2⟩ ⟨1, 3⟩

/-- C9: with `T::Equals` a pure function (any Lean function is), every
derived operation is deterministic — two invocations on equal inputs
return equal results. The operations are functions of their arguments
alone: the capability carries no state, and no operand is modified. -/
theorem derived_ops_deterministic {T E : Type}
    (Equals : T → T → Bool) (EqualsE : T → T → E → Bool)
    (a a₂ b b₂ : T) (l l₂ r r₂ : Option T) (x x₂ : E)
    (ha : a = a₂) (hb : b = b₂) (hl : l = l₂) (hr : r = r₂)
    (hx : x = x₂) :
    opEq Equals a b = opEq Equals a₂ b₂ ∧
    opNe Equals a b = opNe Equals a₂ b₂ ∧
    equalsShared EqualsE a l x = equalsShared EqualsE a₂ l₂ x₂ ∧
    PtrsEqual Equals l r = PtrsEqual Equals l₂ r₂ := by
  subst ha hb hl hr hx
  exact ⟨rfl, rfl, rfl, rfl⟩

/-- Witness for C9: determinism of all four derived operations at
concrete points, extra-argument overload included. -/
theorem derived_ops_deterministic_witness :
    opEq Point.Equals ⟨1, 2⟩ ⟨1, 2⟩ = opEq Point.Equals ⟨1, 2⟩ ⟨1, 2⟩ ∧
    opNe Point.Equals ⟨1, 2⟩ ⟨1, 2⟩ = opNe Point.Equals ⟨1, 2⟩ ⟨1, 2⟩ ∧
    equalsShared Point.EqualsTol ⟨1, 2⟩ (some ⟨1, 3⟩) 1 =
      equalsShared Point.EqualsTol ⟨1, 2⟩ (some ⟨1, 3⟩) 1 ∧
    PtrsEqual Point.Equals (some ⟨1, 3⟩) (some ⟨1, 3⟩) =
      PtrsEqual Point.Equals (some ⟨1, 3⟩) (some ⟨1, 3⟩) :=
  derived_ops_deterministic Point.Equals Point.EqualsTol
    ⟨1, 2⟩ ⟨1, 2⟩ ⟨1, 2⟩ ⟨1, 2⟩
    (some ⟨1, 3⟩) (some ⟨1, 3⟩) (some ⟨1, 3⟩) (some ⟨1, 3⟩)
    1 1 rfl rfl rfl rfl rfl

/-- C10: with no extra arguments, the capability's `Equals` overload on
a present reference agrees with the synthesized `operator==` applied to
the dereferenced value. -/
theorem equalsSharedNoExtra_agrees_opEq {T : Type}
    (Equals : T → T → Bool) (a b : T) :
    equalsSharedNoExtra Equals a (some b) = opEq Equals a b :=
  rfl

end Arrow.Util
